import Mathlib

/-!
Verification of the tool-call gateway subsystem of an AI-agent audit-logging
service, embedded shallowly from the Python source:

* `app/audit/masking.py`        — `DataMasker.mask_string` (regex-based PII masking)
* `app/mcp_gateway/permission_service.py` — `ToolPermissionService.check_permission`
* `app/models/mcp_tool_permission.py`     — `MCPToolPermission.is_expired` / `is_time_allowed`
* `app/mcp_gateway/gateway.py`  — `MCPGateway.call_tool` / `MCPGateway.check_permission`
* `app/audit/service.py`        — `AuditService.log_complete`
* `app/mcp_gateway/encryption.py` — `EncryptionService.encrypt` / `decrypt`

Strings are embedded as `List Char` / `String`; machine clock readings become
explicit natural-number millisecond parameters; Python exceptions become
`Except` / `Option` values.
-/

/-! ## Regex engine for `DataMasker`

`DataMasker.mask_string` applies five concrete `re.sub` calls in a fixed
order.  We embed a small backtracking matcher covering exactly the regex
features those five patterns use: literal characters, character classes,
greedy bounded/unbounded class repetition, greedy optional literals, word
boundaries `\b`, and (non-nested) capture groups.  Matching is fuelled so
every function is structurally recursive and kernel-reducible. -/

/-- Python `\d` on the ASCII strings in play. -/
def isDigitCh (c : Char) : Bool := '0' ≤ c && c ≤ '9'

/-- Python `\w` (word character) on the ASCII strings in play. -/
def isWordCh (c : Char) : Bool := c.isAlphanum || c = '_'

/-- One element of a compiled regular expression. -/
inductive RElem where
  | lit : Char → RElem
  | cls : (Char → Bool) → RElem
  | rep : (Char → Bool) → Nat → Option Nat → RElem
  | opt : Char → RElem
  | wb : RElem
  | gOpen : Nat → RElem
  | gClose : Nat → RElem

/-- Matcher state: previous consumed character (for `\b`), remaining input,
currently open capture groups (chars in reverse), finished captures. -/
structure MState where
  prev : Option Char
  rest : List Char
  openGs : List (Nat × List Char)
  caps : List (Nat × List Char)

/-- Length of the maximal run of characters satisfying `p` at the front. -/
def runLen (p : Char → Bool) : List Char → Nat
  | [] => 0
  | c :: cs => if p c then runLen p cs + 1 else 0

/-- Consume one character (no-op on empty input). -/
def consume1 (st : MState) : MState :=
  match st.rest with
  | [] => st
  | c :: cs => ⟨some c, cs, st.openGs.map (fun g => (g.1, c :: g.2)), st.caps⟩

/-- Consume `n` characters. -/
def consumeN : Nat → MState → MState
  | 0, st => st
  | n + 1, st => consumeN n (consume1 st)

def isWordOpt : Option Char → Bool
  | none => false
  | some c => isWordCh c

/-- Python `\b`: the word-ness of the previous and next character differ
(position before the first character has a non-word left context). -/
def atBoundary (st : MState) : Bool :=
  isWordOpt st.prev != (match st.rest with | [] => false | c :: _ => isWordCh c)

/-- `[hi, hi-1, ..., lo]` (empty when `hi < lo`): greedy repetition counts. -/
def countdown (lo : Nat) : Nat → List Nat
  | 0 => if lo = 0 then [0] else []
  | n + 1 => if n + 1 < lo then [] else (n + 1) :: countdown lo n

/-- First `some` produced by `f` along the list. -/
def firstSome : List α → (α → Option β) → Option β
  | [], _ => none
  | a :: as, f =>
    match f a with
    | some b => some b
    | none => firstSome as f

/-- Backtracking matcher, anchored at the current position.  Returns the
state after the match (greedy, leftmost-preference order exactly as Python's
`re`).  `fuel` only needs to exceed the element count of the pattern. -/
def tryMatch : Nat → List RElem → MState → Option MState
  | 0, _, _ => none
  | _ + 1, [], st => some st
  | fuel + 1, e :: es, st =>
    match e with
    | .lit c =>
      match st.rest with
      | c' :: _ => if c' = c then tryMatch fuel es (consume1 st) else none
      | [] => none
    | .cls p =>
      match st.rest with
      | c' :: _ => if p c' then tryMatch fuel es (consume1 st) else none
      | [] => none
    | .opt c =>
      match st.rest with
      | c' :: _ =>
        if c' = c then
          match tryMatch fuel es (consume1 st) with
          | some r => some r
          | none => tryMatch fuel es st
        else tryMatch fuel es st
      | [] => tryMatch fuel es st
    | .wb => if atBoundary st then tryMatch fuel es st else none
    | .rep p lo hi =>
      let maxAvail := runLen p st.rest
      let maxCnt := match hi with | none => maxAvail | some h => min maxAvail h
      firstSome (countdown lo maxCnt) (fun cnt => tryMatch fuel es (consumeN cnt st))
    | .gOpen n => tryMatch fuel es ⟨st.prev, st.rest, (n, []) :: st.openGs, st.caps⟩
    | .gClose _ =>
      match st.openGs with
      | (m, acc) :: gs => tryMatch fuel es ⟨st.prev, st.rest, gs, (m, acc.reverse) :: st.caps⟩
      | [] => none

/-- Look up a finished capture group (empty when absent, mirroring that the
five patterns always bind their groups on a successful match). -/
def getCap (caps : List (Nat × List Char)) (n : Nat) : List Char :=
  match caps.find? (fun g => g.1 == n) with
  | some g => g.2
  | none => []

def starRep (n : Nat) : List Char := List.replicate n '*'

/-- `re.sub` scan: find leftmost non-overlapping matches, replace each with
`repl` of its captures, resume after the match end.  `\b` context for later
matches uses the original characters (tracked in `prev`), as Python does. -/
def subScan (pat : List RElem) (repl : List (Nat × List Char) → List Char) :
    Nat → Option Char → List Char → List Char
  | 0, _, rest => rest
  | fuel + 1, prev, rest =>
    match tryMatch 64 pat ⟨prev, rest, [], []⟩ with
    | some st =>
      if rest.length - st.rest.length = 0 then
        -- zero-width match: none of the five patterns can produce one,
        -- kept only to make the scanner total
        match rest with
        | [] => repl st.caps
        | c :: cs => repl st.caps ++ c :: subScan pat repl fuel (some c) cs
      else repl st.caps ++ subScan pat repl fuel st.prev st.rest
    | none =>
      match rest with
      | [] => []
      | c :: cs => c :: subScan pat repl fuel (some c) cs

/-! ### The five patterns of `DataMasker.PATTERNS`, in dict order -/

/-- `\b(\d{6})-?(\d{7})\b` (resident registration number). -/
def ssnPat : List RElem :=
  [.wb, .gOpen 1, .rep isDigitCh 6 (some 6), .gClose 1, .opt '-',
   .gOpen 2, .rep isDigitCh 7 (some 7), .gClose 2, .wb]

def ssnRepl (_ : List (Nat × List Char)) : List Char := "******-*******".toList

/-- `\b(\d{4})-?(\d{4})-?(\d{4})-?(\d{4})\b` (card number). -/
def cardPat : List RElem :=
  [.wb, .gOpen 1, .rep isDigitCh 4 (some 4), .gClose 1, .opt '-',
   .gOpen 2, .rep isDigitCh 4 (some 4), .gClose 2, .opt '-',
   .gOpen 3, .rep isDigitCh 4 (some 4), .gClose 3, .opt '-',
   .gOpen 4, .rep isDigitCh 4 (some 4), .gClose 4, .wb]

def cardRepl (caps : List (Nat × List Char)) : List Char :=
  "****-****-****-".toList ++ getCap caps 4

def emailLocalCh (c : Char) : Bool :=
  c.isAlphanum || c = '.' || c = '_' || c = '%' || c = '+' || c = '-'

def emailDomainCh (c : Char) : Bool := c.isAlphanum || c = '.' || c = '-'

/-- `\b([a-zA-Z0-9._%+-]+)@([a-zA-Z0-9.-]+\.[a-zA-Z]{2,})\b` (email). -/
def emailPat : List RElem :=
  [.wb, .gOpen 1, .rep emailLocalCh 1 none, .gClose 1, .lit '@',
   .gOpen 2, .rep emailDomainCh 1 none, .lit '.', .rep Char.isAlpha 2 none, .gClose 2, .wb]

def emailRepl (caps : List (Nat × List Char)) : List Char :=
  let g1 := getCap caps 1
  g1.take 1 ++ starRep (g1.length - 1) ++ '@' :: getCap caps 2

def phoneSecondCh (c : Char) : Bool :=
  c = '0' || c = '1' || c = '6' || c = '7' || c = '8' || c = '9'

/-- `\b(01[016789])-?(\d{3,4})-?(\d{4})\b` (mobile phone number). -/
def phonePat : List RElem :=
  [.wb, .gOpen 1, .lit '0', .lit '1', .cls phoneSecondCh, .gClose 1, .opt '-',
   .gOpen 2, .rep isDigitCh 3 (some 4), .gClose 2, .opt '-',
   .gOpen 3, .rep isDigitCh 4 (some 4), .gClose 3, .wb]

def phoneRepl (caps : List (Nat × List Char)) : List Char :=
  getCap caps 1 ++ "-****-".toList ++ getCap caps 3

/-- `\b(\d{3})-(\d{2,6})-(\d{2,6})\b` (account number). -/
def accountPat : List RElem :=
  [.wb, .gOpen 1, .rep isDigitCh 3 (some 3), .gClose 1, .lit '-',
   .gOpen 2, .rep isDigitCh 2 (some 6), .gClose 2, .lit '-',
   .gOpen 3, .rep isDigitCh 2 (some 6), .gClose 3, .wb]

/-- `f"{g1}-{'*'*len(g2)}-{'*'*(len(g3)-3)}{g3[-3:]}"` — Python's negative
string repetition yields `""` and `[-3:]` keeps the whole string when it is
shorter than 3, which truncated `Nat` subtraction reproduces exactly. -/
def accountRepl (caps : List (Nat × List Char)) : List Char :=
  let g2 := getCap caps 2
  let g3 := getCap caps 3
  getCap caps 1 ++ '-' :: starRep g2.length ++ '-' ::
    (starRep (g3.length - 3) ++ g3.drop (g3.length - 3))

def applyPattern (pat : List RElem) (repl : List (Nat × List Char) → List Char)
    (s : List Char) : List Char :=
  subScan pat repl (s.length + 1) none s

/-- `DataMasker.mask_string` on the character list: the five `re.sub` calls in
the insertion order of `DataMasker.PATTERNS`. -/
def mask_chars (s : List Char) : List Char :=
  applyPattern accountPat accountRepl
    (applyPattern phonePat phoneRepl
      (applyPattern emailPat emailRepl
        (applyPattern cardPat cardRepl
          (applyPattern ssnPat ssnRepl s))))

/-- `DataMasker.mask_string` (the `not text` early return is the identity on
the empty string, which the pipeline also fixes). -/
def mask_string (s : String) : String := String.mk (mask_chars s.toList)

/-! ## Permission policy model

From `app/models/mcp_tool_permission.py` and
`app/mcp_gateway/permission_service.py`.  UUIDs are opaque strings; the
`datetime` readings that `is_expired` / `is_time_allowed` consult are
abstracted into a `CheckTime` record (an instant for the expiry comparison
plus the hour-of-day and weekday the time-restriction checks extract). -/

/-- `PermissionType` enum. -/
inductive PermissionType where
  | ALLOWED
  | BLOCKED
  | APPROVAL_REQUIRED
deriving DecidableEq

/-- The `time_restrictions` JSONB payload: the two recognised keys, each
optional (an empty dict behaves like both keys absent, which this model
reproduces). -/
structure TimeRestrictions where
  allowed_hours : Option (List Nat)
  allowed_days : Option (List String)
deriving DecidableEq

/-- One `mcp_tool_permissions` row, restricted to the columns
`check_permission` reads.  `param_constraints` and `rate_limit` are kept as
truthiness flags because the source only tests them in no-op branches. -/
structure MCPToolPermission where
  user_id : String
  connection_id : String
  tool_name : String
  permission_type : PermissionType
  param_constraints : Bool := false
  expires_at : Option Nat := none
  time_restrictions : Option TimeRestrictions := none
  rate_limit : Bool := false
deriving DecidableEq

/-- The clock readings a single permission check consumes:
`datetime.utcnow()` as an abstract millisecond instant for the expiry
comparison, and the hour / weekday (`0 = Monday`) it decomposes into. -/
structure CheckTime where
  nowUtc : Nat
  hour : Nat
  weekday : Nat
deriving DecidableEq

/-- `MCPToolPermission.is_expired`: no expiry → not expired; otherwise
expired iff `utcnow() > expires_at` (strict). -/
def is_expired (p : MCPToolPermission) (nowUtc : Nat) : Bool :=
  match p.expires_at with
  | none => false
  | some t => nowUtc > t

/-- `day_names[weekday]` from `is_time_allowed` (weekday is always `< 7`). -/
def dayName (w : Nat) : String :=
  ["monday", "tuesday", "wednesday", "thursday", "friday", "saturday", "sunday"].getD w ""

/-- `MCPToolPermission.is_time_allowed` at the given check time. -/
def is_time_allowed (p : MCPToolPermission) (ct : CheckTime) : Bool :=
  match p.time_restrictions with
  | none => true
  | some tr =>
    (match tr.allowed_hours with
     | none => true
     | some hs => hs.contains ct.hour) &&
    (match tr.allowed_days with
     | none => true
     | some ds => ds.contains (dayName ct.weekday))

/-- `ToolPermissionService.get_permission`: the unique row for the
(user, connection, tool) triple — the table carries a unique index on the
triple, so `find?` and `scalar_one_or_none` agree. -/
def get_permission (table : List MCPToolPermission) (u c t : String) :
    Option MCPToolPermission :=
  table.find? (fun p => p.user_id == u && p.connection_id == c && p.tool_name == t)

def blockedMsg (t : String) : String := "Tool '" ++ t ++ "' 사용이 차단되었습니다"

def approvalMsg (t : String) : String := "Tool '" ++ t ++ "' 사용에 관리자 승인이 필요합니다"

def expiredMsg (t : String) : String := "Tool '" ++ t ++ "' 권한이 만료되었습니다"

def timeMsg (t : String) : String := "Tool '" ++ t ++ "'는 현재 시간에 사용할 수 없습니다"

/-- `ToolPermissionService.check_permission`: lookup then the ordered rule
cascade (steps 6 and 7 of the source are no-op `pass` branches). `params`
is accepted, and ignored, exactly as the source ignores it today. -/
def check_permission (table : List MCPToolPermission) (ct : CheckTime)
    (u c t : String) (_params : List (String × String)) : Bool × Option String :=
  match get_permission table u c t with
  | none => (true, none)
  | some p =>
    if p.permission_type = .BLOCKED then (false, some (blockedMsg t))
    else if p.permission_type = .APPROVAL_REQUIRED then (false, some (approvalMsg t))
    else if is_expired p ct.nowUtc then (false, some (expiredMsg t))
    else if !(is_time_allowed p ct) then (false, some (timeMsg t))
    else (true, none)

/-! ## Audit model

From `app/models/audit.py` / `app/audit/service.py`.  A persisted
`AuditLog` row as `log_complete` builds it.  Tool parameters are the flat
string-to-string maps the gateway claims exercise; `mask_response` is the
plain-string branch of the source's `DataMasker.mask_response` (the claims
never feed it a payload that parses as a JSON document). -/

inductive AuditStatus where
  | SUCCESS
  | FAIL
  | DENIED
deriving DecidableEq

abbrev Params := List (String × String)

/-- `DataMasker.mask_dict` on a flat string-valued dict: mask every value. -/
def mask_params (ps : Params) : Params := ps.map (fun kv => (kv.1, mask_string kv.2))

/-- `DataMasker.mask_response` on an optional plain-string payload (the
JSON-probing branch of the source never fires on the payloads in play). -/
def mask_response (r : Option String) : Option String := r.map mask_string

/-- One persisted audit row, with the fields `log_complete` fills. -/
structure AuditRecord where
  user_id : String
  tool_name : String
  tool_params : Option Params
  user_query : Option String
  session_id : Option Nat
  response : Option String
  status : AuditStatus
  error_message : Option String
  execution_time_ms : Option String
deriving DecidableEq

/-- Field computation of `AuditService.log_complete`: params are masked when
truthy (an empty dict is falsy and stored as `None`), the response is
masked, and the duration is stringified when truthy (`0` is falsy and
stored as `None`). -/
def log_complete (user_id tool_name : String) (params : Params)
    (response : Option String) (status : AuditStatus) (user_query : Option String)
    (session_id : Option Nat) (error_message : Option String)
    (execMs : Option Nat) : AuditRecord :=
  { user_id := user_id
    tool_name := tool_name
    tool_params := if params.isEmpty then none else some (mask_params params)
    user_query := user_query
    session_id := session_id
    response := mask_response response
    status := status
    error_message := error_message
    execution_time_ms :=
      match execMs with
      | none => none
      | some m => if m = 0 then none else some (toString m) }

/-! ## Gateway model

From `app/mcp_gateway/gateway.py`.  The stateful pieces become explicit:
the `_connections` dict is an insertion-ordered association list; the
backend client, the permission evaluator, and the audit store become
functions that either produce a value or raise (`Except` / `Option` of an
exception message).  The two wall-clock samples `call_tool` can take are
driven by three elapsed-millisecond parameters: `tPre` (entry through
parsing, resolution and the permission check), `tCall` (the backend call)
and `tAudit` (a failed audit attempt before the second sample). -/

/-- `ToolCallResult` dataclass. -/
structure ToolCallResult where
  success : Bool
  data : Option String := none
  error : Option String := none
  execution_time_ms : Nat := 0
deriving DecidableEq

/-- `MCPConnection` dataclass, restricted to the fields `call_tool` reads. -/
structure MCPConnection where
  id : String
  name : String
  type : String
  enabled : Bool := true
deriving DecidableEq

/-- The collaborators of one `MCPGateway` instance.  `clientCall cid tool
params` is the registered client's `call_tool` (an `Except.error` is a
raised exception); `permCheckExc` bundles the two `UUID(...)` conversions
and `ToolPermissionService.check_permission`, any of which may raise;
`auditExc r` is `AuditService.log_complete` persisting `r`, returning
`some e` when it raises `e`. -/
structure GatewayEnv where
  connections : List (String × MCPConnection)
  clientCall : String → String → Params → Except String ToolCallResult
  dbSession : Bool
  permCheckExc : String → String → String → Params → Except String (Bool × Option String)
  auditExc : AuditRecord → Option String

/-- Everything observable about one `call_tool` invocation: the returned
result (or the exception that escaped), the audit records persisted, the
number of backend-client calls made, and the warnings printed. -/
structure CallOutcome where
  result : Except String ToolCallResult
  audits : List AuditRecord
  backendCalls : Nat
  warnings : List String

def permWarning (e : String) : String := "Warning: Permission check failed: " ++ e

def invalidNameMsg (n : String) : String := "잘못된 Tool 이름 형식: " ++ n

def noConnAuditMsg (k : String) : String := "MCP 연결 없음: " ++ k

def noConnErr (k : String) : String := "MCP 연결을 찾을 수 없습니다: " ++ k

/-- `tool_name.split(".", 1)`: `none` when the name has no separator (the
only way `len(parts) != 2`), otherwise the parts around the first `.`. -/
def splitOnceAux : List Char → Option (List Char × List Char)
  | [] => none
  | c :: cs =>
    if c = '.' then some ([], cs)
    else
      match splitOnceAux cs with
      | none => none
      | some (l, r) => some (c :: l, r)

def split_once (s : String) : Option (String × String) :=
  (splitOnceAux s.toList).map (fun p => (String.mk p.1, String.mk p.2))

/-- The connection-resolution loop: first registered connection whose kind
matches and which is enabled (dict iteration order = insertion order). -/
def find_connection (conns : List (String × MCPConnection)) (k : String) :
    Option (String × MCPConnection) :=
  conns.find? (fun p => p.2.type == k && p.2.enabled)

/-- Prepend warnings to an outcome (the `print(f"Warning: ...")` effect). -/
def addWarning (w : List String) (o : CallOutcome) : CallOutcome :=
  ⟨o.result, o.audits, o.backendCalls, w ++ o.warnings⟩

/-- The `try`/`except` block around the backend invocation
(`gateway.py` lines 220–262): call the client, stamp the measured duration
into the result, audit SUCCESS/FAIL; a raised exception — from the backend
or from the success-path audit write — falls into the `except` branch,
which audits FAIL and returns a failure result; an exception raised by that
second audit write escapes. -/
def backend_phase (clientCall : String → String → Params → Except String ToolCallResult)
    (auditExc : AuditRecord → Option String) (connId actualTool toolName : String)
    (params : Params) (userId : String) (userQuery : Option String)
    (sessionId : Option Nat) (tPre tCall tAudit : Nat) : CallOutcome :=
  match clientCall connId actualTool params with
  | .ok r =>
    let ms := tPre + tCall
    let r' : ToolCallResult := { r with execution_time_ms := ms }
    let rec1 := log_complete userId toolName params r.data
      (if r.success then .SUCCESS else .FAIL) userQuery sessionId r.error (some ms)
    match auditExc rec1 with
    | none => ⟨.ok r', [rec1], 1, []⟩
    | some e =>
      let ms2 := tPre + tCall + tAudit
      let rec2 := log_complete userId toolName params none .FAIL userQuery sessionId
        (some e) (some ms2)
      match auditExc rec2 with
      | none => ⟨.ok ⟨false, none, some e, ms2⟩, [rec2], 1, []⟩
      | some e2 => ⟨.error e2, [], 1, []⟩
  | .error e =>
    let ms := tPre + tCall
    let rec2 := log_complete userId toolName params none .FAIL userQuery sessionId
      (some e) (some ms)
    match auditExc rec2 with
    | none => ⟨.ok ⟨false, none, some e, ms⟩, [rec2], 1, []⟩
    | some e2 => ⟨.error e2, [], 1, []⟩

/-- `MCPGateway.call_tool`.  Branch for branch:
name parsing (immediate failure, no audit); connection resolution (audit
FAIL then failure); when a db session is present, the permission `try`
block — evaluator error is caught, warned about and execution continues
(fail-open), a denial audits DENIED and returns failure, and an exception
from that DENIED audit write is swallowed by the same `except`, so
execution also continues to the backend; finally the backend phase. -/
def call_tool (env : GatewayEnv) (toolName : String) (params : Params)
    (userId : String) (userQuery : Option String) (sessionId : Option Nat)
    (tPre tCall tAudit : Nat) : CallOutcome :=
  match split_once toolName with
  | none => ⟨.ok ⟨false, none, some (invalidNameMsg toolName), 0⟩, [], 0, []⟩
  | some (mcpType, actualTool) =>
    match find_connection env.connections mcpType with
    | none =>
      let r := log_complete userId toolName params none .FAIL userQuery sessionId
        (some (noConnAuditMsg mcpType)) none
      match env.auditExc r with
      | none => ⟨.ok ⟨false, none, some (noConnErr mcpType), 0⟩, [r], 0, []⟩
      | some e => ⟨.error e, [], 0, []⟩
    | some (connId, _conn) =>
      if env.dbSession then
        match env.permCheckExc userId connId actualTool params with
        | .error e =>
          addWarning [permWarning e]
            (backend_phase env.clientCall env.auditExc connId actualTool toolName
              params userId userQuery sessionId tPre tCall tAudit)
        | .ok (isAllowed, errMsg) =>
          if isAllowed then
            backend_phase env.clientCall env.auditExc connId actualTool toolName
              params userId userQuery sessionId tPre tCall tAudit
          else
            let r := log_complete userId toolName params none .DENIED userQuery
              sessionId errMsg none
            match env.auditExc r with
            | none => ⟨.ok ⟨false, none, errMsg, 0⟩, [r], 0, []⟩
            | some e =>
              addWarning [permWarning e]
                (backend_phase env.clientCall env.auditExc connId actualTool toolName
                  params userId userQuery sessionId tPre tCall tAudit)
      else
        backend_phase env.clientCall env.auditExc connId actualTool toolName
          params userId userQuery sessionId tPre tCall tAudit

/-- `MCPGateway.check_permission`: no db session → allow; evaluator or UUID
conversion raising → warn and allow (fail-open); otherwise the evaluator's
verdict. -/
def gateway_check_permission (dbSession : Bool)
    (permCheckExc : String → String → String → Params → Except String (Bool × Option String))
    (u c t : String) (params : Params) : Bool × Option String :=
  if dbSession then
    match permCheckExc u c t params with
    | .ok v => v
    | .error _ => (true, none)
  else (true, none)

/-! ## Credential vault model

From `app/mcp_gateway/encryption.py`.  `EncryptionService.encrypt` is
`base64.b64encode(fernet.encrypt(json.dumps(m).encode()))` and `decrypt`
inverts the three layers in reverse.  The Fernet cipher and the JSON
serializer are external libraries, abstracted behind their documented
round-trip contracts; standard base64 is implemented concretely on byte
lists and verified. -/

/-- RFC 4648 base64 alphabet. -/
def b64Alphabet : List Char :=
  "ABCDEFGHIJKLMNOPQRSTUVWXYZabcdefghijklmnopqrstuvwxyz0123456789+/".toList

def b64Char (n : Nat) : Char := b64Alphabet.getD n '='

def b64Index (c : Char) : Option Nat := b64Alphabet.findIdx? (· = c)

/-- `base64.b64encode` on a byte list (3-byte groups → 4 characters,
`=`-padded). -/
def b64Encode : List Nat → List Char
  | [] => []
  | [x] => [b64Char (x / 4), b64Char (x % 4 * 16), '=', '=']
  | [x, y] => [b64Char (x / 4), b64Char (x % 4 * 16 + y / 16), b64Char (y % 16 * 4), '=']
  | x :: y :: z :: rest =>
    b64Char (x / 4) :: b64Char (x % 4 * 16 + y / 16) ::
      b64Char (y % 16 * 4 + z / 64) :: b64Char (z % 64) :: b64Encode rest

/-- `base64.b64decode` on a character list (strict 4-character groups,
padding only at the end). -/
def b64Decode : List Char → Option (List Nat)
  | [] => some []
  | a :: b :: c :: d :: rest =>
    match b64Index a, b64Index b with
    | some i, some j =>
      if c = '=' then
        if d = '=' ∧ rest = [] then some [i * 4 + j / 16] else none
      else
        match b64Index c with
        | some k =>
          if d = '=' then
            if rest = [] then some [i * 4 + j / 16, j % 16 * 16 + k / 4] else none
          else
            match b64Index d with
            | some l =>
              (b64Decode rest).map
                (fun bs => (i * 4 + j / 16) :: (j % 16 * 16 + k / 4) :: (k % 4 * 64 + l) :: bs)
            | none => none
        | none => none
    | _, _ => none
  | _ => none

/-- Credential maps, as in the source's example
`{"username": "root", "password": "1234"}`. -/
abbrev CredMap := List (String × String)

/-- Modelled from the spec: the Fernet cipher (authenticated symmetric
encryption over bytes) and the JSON serializer used by
`EncryptionService` live in external libraries, not in this repository;
they are abstracted as the byte-level functions the service composes, and
their documented round-trip contracts become hypotheses of the round-trip
theorem. -/
structure EncryptionService where
  fernetEnc : List Nat → List Nat
  fernetDec : List Nat → Option (List Nat)
  jsonDumps : CredMap → List Nat
  jsonLoads : List Nat → Option CredMap

/-- `EncryptionService.encrypt`: JSON-serialize, Fernet-encrypt, then
base64-encode into a string. -/
def encrypt (svc : EncryptionService) (m : CredMap) : String :=
  String.mk (b64Encode (svc.fernetEnc (svc.jsonDumps m)))

/-- `EncryptionService.decrypt`: base64-decode, Fernet-decrypt, then
JSON-parse (a `none` is a raised library exception). -/
def decrypt (svc : EncryptionService) (s : String) : Option CredMap :=
  ((b64Decode s.toList).bind svc.fernetDec).bind svc.jsonLoads

/-! ## Auxiliary lemmas -/

theorem b64Index_b64Char : ∀ n, n < 64 → b64Index (b64Char n) = some n := by decide

theorem b64Char_ne_pad : ∀ n, n < 64 → b64Char n ≠ '=' := by decide

/-- Base64 round-trip on byte lists. -/
theorem b64_roundtrip : ∀ b : List Nat, (∀ x ∈ b, x < 256) →
    b64Decode (b64Encode b) = some b := by
  intro b
  induction b using b64Encode.induct with
  | case1 =>
    intro _
    rfl
  | case2 x =>
    intro h
    have hx : x < 256 := h x (by simp)
    simp only [b64Encode, b64Decode]
    rw [b64Index_b64Char _ (by omega), b64Index_b64Char _ (by omega)]
    simp
    omega
  | case3 x y =>
    intro h
    have hx : x < 256 := h x (by simp)
    have hy : y < 256 := h y (by simp)
    have hc : b64Char (y % 16 * 4) ≠ '=' := b64Char_ne_pad _ (by omega)
    simp only [b64Encode, b64Decode]
    rw [b64Index_b64Char _ (by omega), b64Index_b64Char _ (by omega)]
    simp only [hc, if_false, b64Index_b64Char _ (show y % 16 * 4 < 64 by omega)]
    simp
    omega
  | case4 x y z rest ih =>
    intro h
    have hx : x < 256 := h x (by simp)
    have hy : y < 256 := h y (by simp)
    have hz : z < 256 := h z (by simp)
    have hc : b64Char (y % 16 * 4 + z / 64) ≠ '=' := b64Char_ne_pad _ (by omega)
    have hd : b64Char (z % 64) ≠ '=' := b64Char_ne_pad _ (by omega)
    have hrest := ih (fun a ha => h a (by simp [ha]))
    simp only [b64Encode, b64Decode]
    rw [b64Index_b64Char _ (by omega), b64Index_b64Char _ (by omega)]
    simp only [hc, hd, if_false,
      b64Index_b64Char _ (show y % 16 * 4 + z / 64 < 64 by omega),
      b64Index_b64Char _ (show z % 64 < 64 by omega)]
    rw [hrest]
    simp
    omega

/-- Every branch of the backend phase makes exactly one backend call. -/
theorem backend_phase_calls (cc : String → String → Params → Except String ToolCallResult)
    (ax : AuditRecord → Option String) (cid t n : String) (ps : Params) (u : String)
    (uq : Option String) (sid : Option Nat) (a b c : Nat) :
    (backend_phase cc ax cid t n ps u uq sid a b c).backendCalls = 1 := by
  simp only [backend_phase]
  repeat' split
  all_goals rfl

/-- With a non-raising audit store, the backend phase persists exactly one
record and returns an `ok` result. -/
theorem backend_phase_auditOk (cc : String → String → Params → Except String ToolCallResult)
    (ax : AuditRecord → Option String) (cid t n : String) (ps : Params) (u : String)
    (uq : Option String) (sid : Option Nat) (a b c : Nat)
    (hax : ∀ r, ax r = none) :
    (backend_phase cc ax cid t n ps u uq sid a b c).audits.length = 1 ∧
    (∃ r, (backend_phase cc ax cid t n ps u uq sid a b c).result = Except.ok r) := by
  simp only [backend_phase]
  split <;> simp [hax]

/-! ## Specification-side definitions (for refinement claims) -/

/-- Modelled from the spec (claim C3's wording): a time restriction whose
allowed hours or allowed weekdays exclude the current time denies. -/
def specTimeAllowed (p : MCPToolPermission) (ct : CheckTime) : Bool :=
  match p.time_restrictions with
  | none => true
  | some tr =>
    !(match tr.allowed_hours with
      | some hs => !(hs.contains ct.hour)
      | none => false) &&
    !(match tr.allowed_days with
      | some ds => !(ds.contains (dayName ct.weekday))
      | none => false)

/-- Modelled from the spec (claim C3's rule list, first match wins): no
policy row allows; BLOCKED denies; APPROVAL_REQUIRED denies; an expired row
(expiry timestamp in the past at check time) denies even if its kind is
ALLOWED; an excluding time restriction denies; otherwise allow. -/
def specPermissionDecision (table : List MCPToolPermission) (ct : CheckTime)
    (u c t : String) : Bool :=
  match get_permission table u c t with
  | none => true
  | some p =>
    if p.permission_type = .BLOCKED then false
    else if p.permission_type = .APPROVAL_REQUIRED then false
    else if (match p.expires_at with | some e => decide (e < ct.nowUtc) | none => false) then false
    else if !(specTimeAllowed p ct) then false
    else true

theorem is_time_allowed_eq_spec (p : MCPToolPermission) (ct : CheckTime) :
    is_time_allowed p ct = specTimeAllowed p ct := by
  unfold is_time_allowed specTimeAllowed
  cases p.time_restrictions with
  | none => rfl
  | some tr =>
    obtain ⟨hs, ds⟩ := tr
    cases hs <;> cases ds <;> simp

/-- C3: `ToolPermissionService.check_permission` decides exactly by the
spec's ordered first-match-wins rule cascade. -/
theorem C3_evaluation_order (table : List MCPToolPermission) (ct : CheckTime)
    (u c t : String) (ps : Params) :
    (check_permission table ct u c t ps).1 = specPermissionDecision table ct u c t := by
  unfold check_permission specPermissionDecision
  cases hg : get_permission table u c t with
  | none => rfl
  | some p =>
    dsimp only
    rw [← is_time_allowed_eq_spec]
    obtain ⟨pu, pc, pt, ptype, ppar, pexp, ptr, prl⟩ := p
    cases ptype <;> cases pexp <;>
      simp only [is_expired] <;>
      cases hta : is_time_allowed ⟨pu, pc, pt, _, ppar, _, ptr, prl⟩ ct <;>
      simp [hta] <;>
      (rename_i e; by_cases hlt : e < ct.nowUtc <;> simp [hlt, hta])

/-- C9: the credential vault round-trips: given the documented round-trip
contracts of the Fernet cipher and the JSON serializer (external libraries)
at the relevant points, `decrypt (encrypt m) = m` for every credential map. -/
theorem C9_vault_roundtrip (svc : EncryptionService) (m : CredMap)
    (hbytes : ∀ x ∈ svc.fernetEnc (svc.jsonDumps m), x < 256)
    (hfernet : svc.fernetDec (svc.fernetEnc (svc.jsonDumps m)) = some (svc.jsonDumps m))
    (hjson : svc.jsonLoads (svc.jsonDumps m) = some m) :
    decrypt svc (encrypt svc m) = some m := by
  unfold decrypt encrypt
  have hto : (String.mk (b64Encode (svc.fernetEnc (svc.jsonDumps m)))).toList
      = b64Encode (svc.fernetEnc (svc.jsonDumps m)) := rfl
  rw [hto, b64_roundtrip _ hbytes]
  simp [hfernet, hjson]

/-- A concrete vault model: identity Fernet, constant serializer on the
sample credential map of the source's docstring. -/
def sampleVault : EncryptionService :=
  ⟨fun b => b, fun b => some b, fun _ => [123, 34, 125],
   fun _ => some [("username", "root"), ("password", "1234")]⟩

theorem C9_vault_roundtrip_witness :
    decrypt sampleVault (encrypt sampleVault [("username", "root"), ("password", "1234")])
      = some [("username", "root"), ("password", "1234")] :=
  C9_vault_roundtrip sampleVault [("username", "root"), ("password", "1234")]
    (by decide) rfl rfl

/-- C1: every `call_tool` invocation that passes name parsing writes exactly
one audit record — across the no-connection, denial, backend-success,
backend-failure and backend-exception branches — and makes at most one
backend call (given a functioning audit store). -/
theorem C1_single_audit (env : GatewayEnv) (name : String) (params : Params)
    (u : String) (uq : Option String) (sid : Option Nat) (tPre tCall tAudit : Nat)
    (k t : String) (hsplit : split_once name = some (k, t))
    (hax : ∀ r, env.auditExc r = none) :
    (call_tool env name params u uq sid tPre tCall tAudit).audits.length = 1 ∧
    (call_tool env name params u uq sid tPre tCall tAudit).backendCalls ≤ 1 := by
  unfold call_tool
  rw [hsplit]
  cases hf : find_connection env.connections k with
  | none => simp [hf, hax]
  | some pr =>
    obtain ⟨cid, conn⟩ := pr
    have hbp := (backend_phase_auditOk env.clientCall env.auditExc cid t name params
      u uq sid tPre tCall tAudit hax).1
    have hbc := backend_phase_calls env.clientCall env.auditExc cid t name params
      u uq sid tPre tCall tAudit
    cases hdb : env.dbSession
    · simp [hf, hdb, hbp, hbc]
    · cases hperm : env.permCheckExc u cid t params with
      | error e => simp [hf, hdb, hperm, addWarning, hbp, hbc]
      | ok v =>
        obtain ⟨allowed, msg⟩ := v
        cases allowed
        · simp [hf, hdb, hperm, hax]
        · simp [hf, hdb, hperm, hbp, hbc]

/-- C2: a BLOCKED policy row makes the matching `call_tool` return failure,
persist exactly one DENIED audit record whose reason names the tool, and
never invoke the backend client. -/
theorem C2_blocked_denied (conns : List (String × MCPConnection))
    (cc : String → String → Params → Except String ToolCallResult)
    (ax : AuditRecord → Option String) (table : List MCPToolPermission) (ct : CheckTime)
    (name k t u cid : String) (conn : MCPConnection) (params : Params)
    (uq : Option String) (sid : Option Nat) (tPre tCall tAudit : Nat)
    (row : MCPToolPermission)
    (hsplit : split_once name = some (k, t))
    (hfind : find_connection conns k = some (cid, conn))
    (hrow : get_permission table u cid t = some row)
    (hblocked : row.permission_type = .BLOCKED)
    (hax : ∀ r, ax r = none) :
    call_tool ⟨conns, cc, true, fun u' c' t' ps' => .ok (check_permission table ct u' c' t' ps'), ax⟩
        name params u uq sid tPre tCall tAudit
      = ⟨.ok ⟨false, none, some (blockedMsg t), 0⟩,
         [log_complete u name params none .DENIED uq sid (some (blockedMsg t)) none],
         0, []⟩ ∧
    (∃ l r, blockedMsg t = l ++ t ++ r) := by
  constructor
  · unfold call_tool
    rw [hsplit]
    simp [hfind, check_permission, hrow, hblocked, hax]
  · exact ⟨"Tool '", "' 사용이 차단되었습니다", rfl⟩

/-- C4: when the permission evaluator itself raises, `call_tool` fails open:
it emits the warning and behaves exactly as the same gateway with the
permission check disabled; `MCPGateway.check_permission` likewise returns
`(True, None)`. -/
theorem C4_fail_open (conns : List (String × MCPConnection))
    (cc : String → String → Params → Except String ToolCallResult)
    (ax : AuditRecord → Option String)
    (pc : String → String → String → Params → Except String (Bool × Option String))
    (name k t u cid : String) (conn : MCPConnection) (params : Params)
    (uq : Option String) (sid : Option Nat) (tPre tCall tAudit : Nat) (e : String)
    (hsplit : split_once name = some (k, t))
    (hfind : find_connection conns k = some (cid, conn))
    (hpc : pc u cid t params = .error e) :
    call_tool ⟨conns, cc, true, pc, ax⟩ name params u uq sid tPre tCall tAudit
      = addWarning [permWarning e]
          (call_tool ⟨conns, cc, false, pc, ax⟩ name params u uq sid tPre tCall tAudit) ∧
    gateway_check_permission true pc u cid t params = (true, none) := by
  constructor
  · unfold call_tool
    rw [hsplit]
    simp [hfind, hpc]
  · unfold gateway_check_permission
    rw [hpc]
    rfl

/-- C10: with no db session, `call_tool` never consults the permission
evaluator (its outcome is invariant under swapping the evaluator), proceeds
to the backend whenever a matching enabled connection exists, and
`MCPGateway.check_permission` returns `(True, None)` unconditionally. -/
theorem C10_no_db_no_permission (conns : List (String × MCPConnection))
    (cc : String → String → Params → Except String ToolCallResult)
    (ax : AuditRecord → Option String)
    (p1 p2 : String → String → String → Params → Except String (Bool × Option String))
    (name : String) (params : Params) (u : String) (uq : Option String)
    (sid : Option Nat) (tPre tCall tAudit : Nat) :
    call_tool ⟨conns, cc, false, p1, ax⟩ name params u uq sid tPre tCall tAudit
      = call_tool ⟨conns, cc, false, p2, ax⟩ name params u uq sid tPre tCall tAudit ∧
    (∀ k t cid conn, split_once name = some (k, t) →
      find_connection conns k = some (cid, conn) →
      (call_tool ⟨conns, cc, false, p1, ax⟩ name params u uq sid tPre tCall tAudit).backendCalls = 1) ∧
    (∀ pc u' c' t' ps', gateway_check_permission false pc u' c' t' ps' = (true, none)) := by
  refine ⟨?_, ?_, fun pc u' c' t' ps' => rfl⟩
  · unfold call_tool
    cases hs : split_once name with
    | none => rfl
    | some pr =>
      obtain ⟨k, t⟩ := pr
      cases hf : find_connection conns k with
      | none => rfl
      | some pr2 => rfl
  · intro k t cid conn hs hf
    unfold call_tool
    rw [hs]
    simp [hf, backend_phase_calls]

theorem splitOnceAux_no_dot : ∀ l : List Char, (∀ c ∈ l, c ≠ '.') →
    splitOnceAux l = none := by
  intro l
  induction l with
  | nil => intro _; rfl
  | cons c cs ih =>
    intro h
    unfold splitOnceAux
    rw [if_neg (h c (by simp)), ih (fun c' hc' => h c' (by simp [hc']))]

theorem splitOnceAux_first_dot : ∀ l r : List Char, (∀ c ∈ l, c ≠ '.') →
    splitOnceAux (l ++ '.' :: r) = some (l, r) := by
  intro l r
  induction l with
  | nil => intro _; rfl
  | cons c cs ih =>
    intro h
    simp only [List.cons_append]
    unfold splitOnceAux
    rw [if_neg (h c (by simp)), ih (fun c' hc' => h c' (by simp [hc']))]

/-- A registered, enabled connection of kind `"a"` whose backend always
succeeds and whose audit store never raises. -/
def multiSepEnv : GatewayEnv :=
  ⟨[("c1", ⟨"c1", "conn", "a", true⟩)],
   fun _ _ _ => .ok ⟨true, some "ok", none, 0⟩,
   false,
   fun _ _ _ _ => .ok (true, none),
   fun _ => none⟩

/-- C5 counterexample: `"a.b.c"` has two separators, yet `call_tool` does
not reject it — it resolves kind `"a"`, calls the backend, succeeds, and
writes an audit record. -/
theorem C5_counterexample :
    (call_tool multiSepEnv "a.b.c" [] "u" none none 0 0 0).result
        = Except.ok ⟨true, some "ok", none, 0⟩ ∧
    (call_tool multiSepEnv "a.b.c" [] "u" none none 0 0 0).audits.length = 1 := by
  exact ⟨rfl, rfl⟩

/-- C5 as amended: only names with zero separators are rejected immediately
(failure result, no audit record, no backend call); a name with at least one
separator is split on its first separator, the remainder — possibly
containing further separators — becoming the backend tool name. -/
theorem C5_amended_separators (env : GatewayEnv) (name : String) (params : Params)
    (u : String) (uq : Option String) (sid : Option Nat) (tPre tCall tAudit : Nat)
    (h : ∀ ch ∈ name.toList, ch ≠ '.') :
    call_tool env name params u uq sid tPre tCall tAudit
      = ⟨.ok ⟨false, none, some (invalidNameMsg name), 0⟩, [], 0, []⟩ ∧
    (∀ pre post : String, (∀ ch ∈ pre.toList, ch ≠ '.') →
      split_once (pre ++ "." ++ post) = some (pre, post)) := by
  constructor
  · unfold call_tool split_once
    rw [splitOnceAux_no_dot _ h]
    rfl
  · intro pre post hpre
    unfold split_once
    have hl : (pre ++ "." ++ post).toList = pre.toList ++ '.' :: post.toList := by
      simp [String.toList, String.data_append]
    rw [hl, splitOnceAux_first_dot _ _ hpre]
    rfl

/-- A registered `"sql"` connection whose backend reports success. -/
def timingEnv : GatewayEnv :=
  ⟨[("c1", ⟨"c1", "db", "sql", true⟩)],
   fun _ _ _ => .ok ⟨true, none, none, 0⟩,
   false,
   fun _ _ _ _ => .ok (true, none),
   fun _ => none⟩

/-- C6 counterexample: with 5 ms spent before the backend call and a 3 ms
backend call, the reported `execution_time_ms` is 8, not the
backend-only 3: the timer starts at `call_tool` entry, not around the
backend invocation. -/
theorem C6_counterexample :
    (call_tool timingEnv "sql.query" [] "u" none none 5 3 0).result
        = Except.ok ⟨true, none, none, 8⟩ ∧ (8 : Nat) ≠ 3 :=
  ⟨rfl, by decide⟩

/-- C6 as amended: the duration stamped into the result (and audited)
measures wall-clock time from `call_tool` entry through the end of the
backend call — parsing, connection resolution and the permission check are
included, the audit write after the backend call is not. -/
theorem C6_amended_duration (conns : List (String × MCPConnection))
    (cc : String → String → Params → Except String ToolCallResult)
    (ax : AuditRecord → Option String)
    (pc : String → String → String → Params → Except String (Bool × Option String))
    (name k t u cid : String) (conn : MCPConnection) (params : Params)
    (uq : Option String) (sid : Option Nat) (tPre tCall tAudit : Nat) (r : ToolCallResult)
    (hsplit : split_once name = some (k, t))
    (hfind : find_connection conns k = some (cid, conn))
    (hcall : cc cid t params = .ok r)
    (hax : ∀ rec' : AuditRecord, ax rec' = none) :
    (call_tool ⟨conns, cc, false, pc, ax⟩ name params u uq sid tPre tCall tAudit).result
      = Except.ok { r with execution_time_ms := tPre + tCall } := by
  unfold call_tool
  rw [hsplit]
  simp [hfind, backend_phase, hcall, hax]

/-- A gateway with no registered connections whose audit store always
raises. -/
def failingAuditEnv : GatewayEnv :=
  ⟨[], fun _ _ _ => .ok ⟨true, none, none, 0⟩, false,
   fun _ _ _ _ => .ok (true, none), fun _ => some "audit store down"⟩

/-- C7 counterexample: an exception raised by the audit service in the
no-connection branch escapes `call_tool`'s public boundary. -/
theorem C7_counterexample :
    (call_tool failingAuditEnv "sql.query" [] "user-1" none none 0 0 0).result
      = Except.error "audit store down" := rfl

/-- C7 as amended: with a non-raising audit store no branch of `call_tool`
lets any exception escape — backend-reported failures and backend exceptions
are converted into a completed `ToolCallResult` — but an exception raised by
the audit service itself can escape the public boundary, as in the
counterexample's no-connection branch; it does not escape from the denial
branch: there the permission `except` swallows the audit exception, prints
the warning, and the call proceeds to the backend. -/
theorem C7_amended_no_escape :
    (∀ (env : GatewayEnv) (name : String) (params : Params) (u : String)
       (uq : Option String) (sid : Option Nat) (tPre tCall tAudit : Nat),
       (∀ r, env.auditExc r = none) →
       ∃ r, (call_tool env name params u uq sid tPre tCall tAudit).result = Except.ok r) ∧
    (∀ (conns : List (String × MCPConnection))
       (cc : String → String → Params → Except String ToolCallResult)
       (ax : AuditRecord → Option String)
       (pc : String → String → String → Params → Except String (Bool × Option String))
       (name k t u cid : String) (conn : MCPConnection) (params : Params)
       (uq : Option String) (sid : Option Nat) (tPre tCall tAudit : Nat)
       (msg : Option String) (e : String),
       split_once name = some (k, t) →
       find_connection conns k = some (cid, conn) →
       pc u cid t params = .ok (false, msg) →
       ax (log_complete u name params none .DENIED uq sid msg none) = some e →
       call_tool ⟨conns, cc, true, pc, ax⟩ name params u uq sid tPre tCall tAudit
         = addWarning [permWarning e]
             (backend_phase cc ax cid t name params u uq sid tPre tCall tAudit)) := by
  constructor
  · intro env name params u uq sid tPre tCall tAudit hax
    unfold call_tool
    cases hs : split_once name with
    | none => exact ⟨_, rfl⟩
    | some pr =>
      obtain ⟨k, t⟩ := pr
      cases hf : find_connection env.connections k with
      | none => exact ⟨⟨false, none, some (noConnErr k), 0⟩, by simp [hf, hax]⟩
      | some pr2 =>
        obtain ⟨cid, conn⟩ := pr2
        have hbp := (backend_phase_auditOk env.clientCall env.auditExc cid t name params
          u uq sid tPre tCall tAudit hax).2
        obtain ⟨r, hr⟩ := hbp
        cases hdb : env.dbSession
        · exact ⟨r, by simp [hf, hdb, hr]⟩
        · cases hperm : env.permCheckExc u cid t params with
          | error e => exact ⟨r, by simp [hf, hdb, hperm, addWarning, hr]⟩
          | ok v =>
            obtain ⟨allowed, msg⟩ := v
            cases allowed
            · exact ⟨⟨false, none, msg, 0⟩, by simp [hf, hdb, hperm, hax]⟩
            · exact ⟨r, by simp [hf, hdb, hperm, hr]⟩
  · intro conns cc ax pc name k t u cid conn params uq sid tPre tCall tAudit msg e
      hsplit hfind hpc haxr
    unfold call_tool
    rw [hsplit]
    simp [hfind, hpc, haxr]

/-- C8 counterexample: masking is not idempotent.  On
`"110-22-333-44-555666"` the first pass masks the account-number match
`110-22-333`, but its kept trailing digits re-anchor a fresh account-number
match `333-44-555666` that only the second pass masks. -/
theorem C8_counterexample :
    mask_string (mask_string "110-22-333-44-555666")
      ≠ mask_string "110-22-333-44-555666" := by
  have h1 : mask_string "110-22-333-44-555666" = "110-**-333-44-555666" := by decide
  have h2 : mask_string "110-**-333-44-555666" = "110-**-333-**-***666" := by decide
  rw [h1, h2]
  decide

/-- C8 as amended: a second pass leaves each pattern's canonical masked form
unchanged (redacted national ID, card, email, phone and account shapes), but
masking is not idempotent on all strings — chained account-number-like digit
groups can leave residue that re-matches — and on the counterexample the
result stabilises from the second pass on. -/
theorem C8_amended_idempotence :
    mask_string "******-*******" = "******-*******" ∧
    mask_string "****-****-****-3456" = "****-****-****-3456" ∧
    mask_string "k**@company.com" = "k**@company.com" ∧
    mask_string "010-****-5678" = "010-****-5678" ∧
    mask_string "110-***-***789" = "110-***-***789" ∧
    mask_string (mask_string (mask_string "110-22-333-44-555666"))
      = mask_string (mask_string "110-22-333-44-555666") := by
  have h1 : mask_string "110-22-333-44-555666" = "110-**-333-44-555666" := by decide
  have h2 : mask_string "110-**-333-44-555666" = "110-**-333-**-***666" := by decide
  have h3 : mask_string "110-**-333-**-***666" = "110-**-333-**-***666" := by decide
  refine ⟨by decide, by decide, by decide, by decide, by decide, ?_⟩
  rw [h1, h2, h3]

/-! ## Witnesses -/

/-- A gateway with one enabled `"sql"` connection, a succeeding backend and
a non-raising audit store. -/
def okEnv : GatewayEnv :=
  ⟨[("c1", ⟨"c1", "db", "sql", true⟩)],
   fun _ _ _ => .ok ⟨true, none, none, 0⟩,
   false,
   fun _ _ _ _ => .ok (true, none),
   fun _ => none⟩

theorem C1_single_audit_witness :
    (call_tool okEnv "sql.query" [] "u" none none 1 2 0).audits.length = 1 ∧
    (call_tool okEnv "sql.query" [] "u" none none 1 2 0).backendCalls ≤ 1 :=
  C1_single_audit okEnv "sql.query" [] "u" none none 1 2 0 "sql" "query"
    (by decide) (fun _ => rfl)

/-- One BLOCKED policy row for user `u1` on connection `c1`, tool
`write_query`. -/
def blockedTable : List MCPToolPermission :=
  [⟨"u1", "c1", "write_query", .BLOCKED, false, none, none, false⟩]

theorem C2_blocked_denied_witness :
    call_tool ⟨[("c1", ⟨"c1", "db", "sql", true⟩)],
        fun _ _ _ => .ok ⟨true, none, none, 0⟩, true,
        fun u' c' t' ps' => .ok (check_permission blockedTable ⟨0, 9, 0⟩ u' c' t' ps'),
        fun _ => none⟩
        "sql.write_query" [] "u1" none none 1 2 3
      = ⟨.ok ⟨false, none, some (blockedMsg "write_query"), 0⟩,
         [log_complete "u1" "sql.write_query" [] none .DENIED none none
           (some (blockedMsg "write_query")) none],
         0, []⟩ ∧
    (∃ l r, blockedMsg "write_query" = l ++ "write_query" ++ r) :=
  C2_blocked_denied [("c1", ⟨"c1", "db", "sql", true⟩)]
    (fun _ _ _ => .ok ⟨true, none, none, 0⟩) (fun _ => none) blockedTable ⟨0, 9, 0⟩
    "sql.write_query" "sql" "write_query" "u1" "c1" ⟨"c1", "db", "sql", true⟩ [] none none
    1 2 3 ⟨"u1", "c1", "write_query", .BLOCKED, false, none, none, false⟩
    (by decide) (by decide) (by decide) rfl (fun _ => rfl)

theorem C4_fail_open_witness :
    call_tool ⟨[("c1", ⟨"c1", "db", "sql", true⟩)],
        fun _ _ _ => .ok ⟨true, none, none, 0⟩, true,
        fun _ _ _ _ => .error "policy store unreachable", fun _ => none⟩
        "sql.query" [] "u1" none none 1 2 3
      = addWarning [permWarning "policy store unreachable"]
          (call_tool ⟨[("c1", ⟨"c1", "db", "sql", true⟩)],
            fun _ _ _ => .ok ⟨true, none, none, 0⟩, false,
            fun _ _ _ _ => .error "policy store unreachable", fun _ => none⟩
            "sql.query" [] "u1" none none 1 2 3) ∧
    gateway_check_permission true (fun _ _ _ _ => .error "policy store unreachable")
        "u1" "c1" "query" [] = (true, none) :=
  C4_fail_open [("c1", ⟨"c1", "db", "sql", true⟩)]
    (fun _ _ _ => .ok ⟨true, none, none, 0⟩) (fun _ => none)
    (fun _ _ _ _ => .error "policy store unreachable")
    "sql.query" "sql" "query" "u1" "c1" ⟨"c1", "db", "sql", true⟩ [] none none 1 2 3
    "policy store unreachable" (by decide) (by decide) rfl

theorem C5_amended_separators_witness :
    call_tool okEnv "plainname" [] "u" none none 0 0 0
      = ⟨.ok ⟨false, none, some (invalidNameMsg "plainname"), 0⟩, [], 0, []⟩ ∧
    (∀ pre post : String, (∀ ch ∈ pre.toList, ch ≠ '.') →
      split_once (pre ++ "." ++ post) = some (pre, post)) :=
  C5_amended_separators okEnv "plainname" [] "u" none none 0 0 0 (by decide)

theorem C6_amended_duration_witness :
    (call_tool ⟨[("c1", ⟨"c1", "db", "sql", true⟩)],
        fun _ _ _ => .ok ⟨true, none, none, 0⟩, false,
        fun _ _ _ _ => .ok (true, none), fun _ => none⟩
        "sql.query" [] "u" none none 5 3 0).result
      = Except.ok ⟨true, none, none, 8⟩ :=
  C6_amended_duration [("c1", ⟨"c1", "db", "sql", true⟩)]
    (fun _ _ _ => .ok ⟨true, none, none, 0⟩) (fun _ => none)
    (fun _ _ _ _ => .ok (true, none))
    "sql.query" "sql" "query" "u" "c1" ⟨"c1", "db", "sql", true⟩ [] none none 5 3 0
    ⟨true, none, none, 0⟩ (by decide) (by decide) rfl (fun _ => rfl)

theorem C7_amended_no_escape_witness :
    (∃ r, (call_tool okEnv "sql.query" [] "u" none none 1 2 3).result = Except.ok r) ∧
    call_tool ⟨[("c1", ⟨"c1", "db", "sql", true⟩)],
        fun _ _ _ => .ok ⟨true, none, none, 0⟩, true,
        fun _ _ _ _ => .ok (false, some "blocked"), fun _ => some "audit down"⟩
        "sql.query" [] "u" none none 1 2 3
      = addWarning [permWarning "audit down"]
          (backend_phase (fun _ _ _ => .ok ⟨true, none, none, 0⟩)
            (fun _ => some "audit down") "c1" "query" "sql.query" [] "u" none none 1 2 3) :=
  ⟨C7_amended_no_escape.1 okEnv "sql.query" [] "u" none none 1 2 3 (fun _ => rfl),
   C7_amended_no_escape.2 [("c1", ⟨"c1", "db", "sql", true⟩)]
     (fun _ _ _ => .ok ⟨true, none, none, 0⟩) (fun _ => some "audit down")
     (fun _ _ _ _ => .ok (false, some "blocked"))
     "sql.query" "sql" "query" "u" "c1" ⟨"c1", "db", "sql", true⟩ [] none none 1 2 3
     (some "blocked") "audit down" (by decide) (by decide) rfl rfl⟩

theorem C10_no_db_no_permission_witness :
    call_tool ⟨[("c1", ⟨"c1", "db", "sql", true⟩)],
        fun _ _ _ => .ok ⟨true, none, none, 0⟩, false,
        fun _ _ _ _ => .ok (false, some "blocked"), fun _ => none⟩
        "sql.query" [] "u" none none 1 2 3
      = call_tool ⟨[("c1", ⟨"c1", "db", "sql", true⟩)],
          fun _ _ _ => .ok ⟨true, none, none, 0⟩, false,
          fun _ _ _ _ => .ok (true, none), fun _ => none⟩
          "sql.query" [] "u" none none 1 2 3 ∧
    (call_tool ⟨[("c1", ⟨"c1", "db", "sql", true⟩)],
        fun _ _ _ => .ok ⟨true, none, none, 0⟩, false,
        fun _ _ _ _ => .ok (false, some "blocked"), fun _ => none⟩
        "sql.query" [] "u" none none 1 2 3).backendCalls = 1 ∧
    gateway_check_permission false (fun _ _ _ _ => .ok (false, some "blocked"))
      "u" "c1" "query" [] = (true, none) := by
  have h := C10_no_db_no_permission [("c1", ⟨"c1", "db", "sql", true⟩)]
    (fun _ _ _ => .ok ⟨true, none, none, 0⟩) (fun _ => none)
    (fun _ _ _ _ => .ok (false, some "blocked")) (fun _ _ _ _ => .ok (true, none))
    "sql.query" [] "u" none none 1 2 3
  exact ⟨h.1, h.2.1 "sql" "query" "c1" ⟨"c1", "db", "sql", true⟩ (by decide) (by decide),
    h.2.2 (fun _ _ _ _ => .ok (false, some "blocked")) "u" "c1" "query" []⟩
